import Mathlib

/-!
Verification development for the technitiumdns-wrapper repository.

The definitions below are a shallow embedding of the API dispatch layer
(src/src/api/client.ts) and of the layered configuration resolver
(the config module, src/unnamed/part_000).  Pure TypeScript functions become
Lean functions; the stateful client becomes explicit state passing; the
HTTP transport, timers and abort signals are modelled by an explicit
transport-outcome input; thrown errors become `Except` results.
-/

namespace Technitium

/-! ## String primitives

Structural char-list implementations of the string operations the source
uses (`trim`, `split`, `includes`, number conversion, case mapping).  The
standard library versions are written against byte positions with
well-founded recursion, which the kernel cannot evaluate; these definitions
compute the same functions structurally so that concrete theorems can be
settled by `decide`/`rfl`. -/

/-- Drop leading and trailing whitespace (`trim`). -/
def charTrim (xs : List Char) : List Char :=
  ((xs.dropWhile Char.isWhitespace).reverse.dropWhile Char.isWhitespace).reverse

def strTrim (s : String) : String := ⟨charTrim s.data⟩

/-- Value of a nonempty all-digit run. -/
def digitsVal? (xs : List Char) : Option Nat :=
  if xs ≠ [] && xs.all Char.isDigit then
    some (xs.foldl (fun n c => n * 10 + (c.toNat - '0'.toNat)) 0)
  else none

/-- Optionally signed decimal integer literal. -/
def charsToInt? : List Char → Option Int
  | '-' :: rest => (digitsVal? rest).map (fun n => -(n : Int))
  | '+' :: rest => (digitsVal? rest).map (fun n => (n : Int))
  | xs => (digitsVal? xs).map (fun n => (n : Int))

/-- Split on a single separator character (`split`). -/
def splitOnCharAux (sep : Char) : List Char → List Char → List (List Char)
  | [], acc => [acc.reverse]
  | c :: rest, acc =>
    if c = sep then acc.reverse :: splitOnCharAux sep rest []
    else splitOnCharAux sep rest (c :: acc)

def splitOnChar (sep : Char) (xs : List Char) : List (List Char) :=
  splitOnCharAux sep xs []

/-- `split("__")`: greedy left-to-right scan for the two-character
separator. -/
def splitOnDoubleUnderscoreAux : List Char → List Char → List (List Char)
  | '_' :: '_' :: rest, acc => acc.reverse :: splitOnDoubleUnderscoreAux rest []
  | c :: rest, acc => splitOnDoubleUnderscoreAux rest (c :: acc)
  | [], acc => [acc.reverse]

def splitOnDoubleUnderscore (xs : List Char) : List (List Char) :=
  splitOnDoubleUnderscoreAux xs []

/-- Split on the three-character separator a key/value line uses. -/
def splitOnSpaceEqSpaceAux : List Char → List Char → List (List Char)
  | ' ' :: '=' :: ' ' :: rest, acc => acc.reverse :: splitOnSpaceEqSpaceAux rest []
  | c :: rest, acc => splitOnSpaceEqSpaceAux rest (c :: acc)
  | [], acc => [acc.reverse]

def splitOnSpaceEqSpace (xs : List Char) : List (List Char) :=
  splitOnSpaceEqSpaceAux xs []

/-- Substring containment (`includes`). -/
def charContainsSub (pat : List Char) : List Char → Bool
  | [] => pat.isEmpty
  | c :: rest => pat.isPrefixOf (c :: rest) || charContainsSub pat rest

/-! ## JavaScript-style query values

The TypeScript `QueryParams` values are
string | number | boolean | null | undefined | arrays of these.
Numbers are modelled as integers: the repository only ever places integer
valued numbers (page numbers, TTLs, ports, timeouts) in query maps, and the
default string form of an integer JS number coincides with `toString`.
-/

inductive QueryValue where
  | str (s : String)
  | num (n : Int)
  | bool (b : Bool)
  | null
  | undefined
  | arr (entries : List QueryValue)
deriving Repr

mutual

/-- Embedding of `toQueryStringValue` (client.ts lines 63-81): arrays map
recursively and join with commas; `true`/`false` render literally;
null/undefined render as the empty string; everything else via its default
string form. -/
def toQueryStringValue : QueryValue → String
  | .arr entries => String.intercalate "," (toQueryStringValueList entries)
  | .bool true => "true"
  | .bool false => "false"
  | .null => ""
  | .undefined => ""
  | .str s => s
  | .num n => toString n

/-- Companion of `toQueryStringValue` for the `value.map(...)` call on arrays. -/
def toQueryStringValueList : List QueryValue → List String
  | [] => []
  | v :: vs => toQueryStringValue v :: toQueryStringValueList vs

end

/-! ## URLSearchParams

`URLSearchParams` is an ordered multimap: `set` replaces the first entry
with the given key and removes the other entries with that key, appending
when the key is absent; `append` adds at the end; `has` tests membership.
We model it as a list of key/value pairs in insertion order.
-/

abbrev SearchParams := List (String × String)

/-- Membership test, `URLSearchParams.has`. -/
def spHas (ps : SearchParams) (k : String) : Bool :=
  ps.any (fun p => p.1 == k)

/-- `URLSearchParams.set`: replace the first entry with key `k`, drop the
rest, append when absent. -/
def spSet : SearchParams → String → String → SearchParams
  | [], k, v => [(k, v)]
  | (k0, v0) :: rest, k, v =>
    if k0 == k then (k, v) :: rest.filter (fun p => !(p.1 == k))
    else (k0, v0) :: spSet rest k v

/-- `URLSearchParams.append`. -/
def spAppend (ps : SearchParams) (k v : String) : SearchParams :=
  ps ++ [(k, v)]

/-- First value held for a key (what `URLSearchParams.get` returns). -/
def spLookup (ps : SearchParams) (k : String) : Option String :=
  (ps.find? (fun p => p.1 == k)).map Prod.snd

/-! ## Endpoint definitions, call options and client state -/

/-- An entry of the endpoint catalog.  `defaultQuery` values are scalars in
the source (`Record<string, string | number | boolean>`) and are written
into the URL with `String(value)`; we keep them pre-stringified.
`requiresToken` is an optional flag (`endpoint.requiresToken ?? false`). -/
structure EndpointDefinition where
  id : String
  method : String
  path : String
  defaultQuery : Option (List (String × String)) := none
  requiresToken : Option Bool := none
deriving Repr, DecidableEq

/-- Provenance tag of the session token (`SessionTokenSnapshot["source"]`). -/
inductive TokenSource where
  | explicit
  | config
  | login
  | unknown
deriving Repr, DecidableEq

/-- The forced response interpretation (`ApiCallOptions["responseType"]`). -/
inductive ResponseType where
  | json
  | text
  | arrayBuffer
  | stream
deriving Repr, DecidableEq

/-- The slice of `ApiCallOptions` the dispatch layer inspects.  A supplied
external abort signal is opaque; only its presence matters for the wiring
`options.signal ?? controller.signal`. -/
structure ApiCallOptions where
  query : Option (List (String × QueryValue)) := none
  token : Option String := none
  includeToken : Option Bool := none
  timeoutMs : Option Int := none
  responseType : Option ResponseType := none
  signal : Option Unit := none
deriving Repr

/-- Mutable state of a `TechnitiumDnsClient` instance together with its
frozen configuration: `sessionToken`/`tokenSource` are the two mutable
fields; `authToken` is `this.auth?.token` flattened; `requestTimeoutMs`
is the client-wide timeout resolved in the constructor. -/
structure ClientState where
  sessionToken : Option String := none
  tokenSource : TokenSource := .unknown
  authToken : Option String := none
  requestTimeoutMs : Int := 15000
deriving Repr, DecidableEq

/-! ## Errors

Structured embedding of the error classes in src/src/api/errors.ts as used
by client.ts.  Messages that only interpolate already-carried data are not
duplicated as strings. -/

/-- A thrown JavaScript error value, as far as the catch clause in `call`
inspects it: `error instanceof DOMException && error.name === "AbortError"`. -/
structure JsError where
  isDOMException : Bool
  name : String
  message : String
deriving Repr, DecidableEq

/-- JSON-decoded values plus the opaque non-JSON payloads `parseResponse`
can produce (array buffers and streams).  `obj` models a post-parse
JavaScript object, so its keys are unique. -/
inductive JsValue where
  | null
  | undefined
  | bool (b : Bool)
  | num (n : Int)
  | str (s : String)
  | arr (elems : List JsValue)
  | obj (fields : List (String × JsValue))
  | buffer
  | stream
deriving Repr

/-- The typed failure taxonomy of the dispatch layer. -/
inductive ClientError where
  | configuration (endpointId endpointPath : Option String)
  | http (statusCode : Int) (statusText : String) (endpointId endpointPath : String)
      (payload : Option JsValue)
  | api (status : String) (message : String) (endpointId endpointPath : String)
      (payload : JsValue)
  | timeout (timeoutMs : Int) (endpointId endpointPath : String)
  | thrown (e : JsError)
deriving Repr

/-! ## URL construction (buildUrl, client.ts lines 354-397)

We model the query-parameter content of the built URL.  `init` stands for
the search params already present on `new URL(path, baseUrl)` (empty for
the catalog path templates). -/

/-- JS truthiness of an optional string: undefined and the empty string are
falsy. -/
def truthyStr : Option String → Bool
  | none => false
  | some s => s != ""

/-- The `a ?? b` operator on optional strings: only undefined falls through
(the empty string does not). -/
def jsOrStr : Option String → Option String → Option String
  | some x, _ => some x
  | none, b => b

/-- Application of the endpoint default query
(`searchParams.set(key, String(value))`, values kept pre-stringified). -/
def applyDefaultQuery (init : SearchParams) (ep : EndpointDefinition) : SearchParams :=
  match ep.defaultQuery with
  | none => init
  | some dq => dq.foldl (fun ps kv => spSet ps kv.1 kv.2) init

/-- Whether a query entry inside an array is kept
(`entry !== undefined && entry !== null`). -/
def queryEntryKept : QueryValue → Bool
  | .undefined => false
  | .null => false
  | _ => true

/-- One iteration of the caller-query loop in `buildUrl`: undefined values
are skipped, arrays append one entry per kept element, scalars use `set`. -/
def applyQueryEntry (ps : SearchParams) (k : String) (v : QueryValue) : SearchParams :=
  match v with
  | .undefined => ps
  | .arr entries =>
    (entries.filter queryEntryKept).foldl
      (fun acc entry => spAppend acc k (toQueryStringValue entry)) ps
  | v => spSet ps k (toQueryStringValue v)

/-- Application of the caller-supplied query map. -/
def applyCallerQuery (ps : SearchParams) (opts : ApiCallOptions) : SearchParams :=
  match opts.query with
  | none => ps
  | some q => q.foldl (fun acc kv => applyQueryEntry acc kv.1 kv.2) ps

/-- The search params right before the token-injection step. -/
def preTokenParams (init : SearchParams) (ep : EndpointDefinition)
    (opts : ApiCallOptions) : SearchParams :=
  applyCallerQuery (applyDefaultQuery init ep) opts

/-- `options.includeToken ?? endpoint.requiresToken ?? false`. -/
def shouldIncludeToken (ep : EndpointDefinition) (opts : ApiCallOptions) : Bool :=
  opts.includeToken.getD (ep.requiresToken.getD false)

/-- `options.token ?? this.sessionToken ?? this.auth?.token`. -/
def resolvedToken (st : ClientState) (opts : ApiCallOptions) : Option String :=
  jsOrStr opts.token (jsOrStr st.sessionToken st.authToken)

/-- Embedding of the query-building part of `buildUrl`: default query, then
caller query, then token injection with the fail-fast configuration check.
An `.error` models the thrown `TechnitiumConfigurationError`. -/
def buildUrlQuery (st : ClientState) (init : SearchParams) (ep : EndpointDefinition)
    (opts : ApiCallOptions) : Except ClientError SearchParams :=
  let ps := preTokenParams init ep opts
  if shouldIncludeToken ep opts && !spHas ps "token" then
    match resolvedToken st opts with
    | none => .error (.configuration (some ep.id) (some ep.path))
    | some t =>
      if t = "" then .error (.configuration (some ep.id) (some ep.path))
      else .ok (spSet ps "token" t)
  else
    .ok ps

/-! ## HTTP responses and body decoding

A completed transport response, as far as `call`, `parseResponse` and
`safeParseJson` inspect it.  `json` is what `response.json()` yields: a
decoded value, or the thrown parse error (`.error`). -/

structure HttpResponse where
  status : Int
  statusText : String
  contentType : Option String := none
  bodyText : String := ""
  json : Except JsError JsValue := .error ⟨false, "SyntaxError", "Unexpected end of JSON input"⟩
deriving Repr

/-- `response.ok`: status in the 2xx range. -/
def responseOk (r : HttpResponse) : Bool :=
  200 ≤ r.status && r.status ≤ 299

/-- Embedding of `isJsonLike` (client.ts lines 59-61). -/
def isJsonLike : Option String → Bool
  | none => false
  | some ct => charContainsSub "json".data ct.data

/-- JS property access `parsed[k]` on a decoded value: missing keys and
access on non-objects yield undefined (numeric array indices are never used
by the dispatch layer). -/
def getProp (v : JsValue) (k : String) : JsValue :=
  match v with
  | .obj fields =>
    match fields.find? (fun kv => kv.1 == k) with
    | some kv => kv.2
    | none => .undefined
  | _ => .undefined

/-- The JS `in` operator restricted to the shapes the dispatch layer
produces: key presence on an object. -/
def hasProp (v : JsValue) (k : String) : Bool :=
  match v with
  | .obj fields => fields.any (fun kv => kv.1 == k)
  | _ => false

/-- `typeof json === "object" && json !== null` for decoded JSON values
(arrays count as objects, null does not). -/
def isJsObjectLike : JsValue → Bool
  | .obj _ => true
  | .arr _ => true
  | _ => false

/-- Embedding of `parseResponse` (client.ts lines 399-429).  A forced type
wraps the body in a fresh ok-envelope; otherwise content-type sniffing
decodes JSON-flavored bodies as JSON (wrapping non-object results) and
everything else as text.  `.error` models the propagated `response.json()`
parse error. -/
def parseResponse (r : HttpResponse) (forcedType : Option ResponseType) :
    Except JsError JsValue :=
  match forcedType with
  | some .text => .ok (.obj [("status", .str "ok"), ("response", .str r.bodyText)])
  | some .arrayBuffer => .ok (.obj [("status", .str "ok"), ("response", .buffer)])
  | some .stream => .ok (.obj [("status", .str "ok"), ("response", .stream)])
  | _ =>
    if !isJsonLike r.contentType then
      .ok (.obj [("status", .str "ok"), ("response", .str r.bodyText)])
    else
      match r.json with
      | .error e => .error e
      | .ok j =>
        if !isJsObjectLike j then .ok (.obj [("status", .str "ok"), ("response", j)])
        else .ok j

/-- Embedding of `safeParseJson` (client.ts lines 436-450): undefined when
the response does not declare a JSON content type; the decoded payload on
success; a diagnostic object when decoding throws. -/
def safeParseJson (r : HttpResponse) : Option JsValue :=
  if !isJsonLike r.contentType then none
  else
    match r.json with
    | .ok j => some j
    | .error e =>
      some (.obj [("error", .str "Failed to parse error response as JSON"),
                  ("cause", .str e.message)])

/-! ## Execution, cancellation and classification (call, lines 280-352) -/

/-- The abort reason carried by the signal that aborted the transport:
either the default `AbortError` DOMException (an `abort()` with no
argument, which is also what the timeout controller produces), or a
caller-chosen custom reason. -/
inductive AbortReason where
  | defaultAbortError
  | custom (e : JsError)
deriving Repr

/-- The error a fetch promise rejects with when its signal aborts. -/
def rejectionOfAbort : AbortReason → JsError
  | .defaultAbortError => ⟨true, "AbortError", "The operation was aborted."⟩
  | .custom e => e

/-- What the awaited transport did for this call: completed with a
response, rejected because the signal given to fetch aborted, or rejected
with some other error. -/
inductive TransportOutcome where
  | response (r : HttpResponse)
  | aborted (reason : AbortReason)
  | failure (e : JsError)
deriving Repr

/-- Which abort signal the transport observes.  The source passes
`options.signal ?? controller.signal` to fetch, so a caller-supplied signal
replaces the internal timeout controller entirely. -/
inductive SignalSource where
  | internalController
  | externalSignal
deriving Repr, DecidableEq

/-- Embedding of `signal: options.signal ?? controller.signal`. -/
def fetchSignalSource (opts : ApiCallOptions) : SignalSource :=
  if opts.signal.isSome then .externalSignal else .internalController

/-- The timeout timer always targets the internal controller
(`setTimeout(() => controller.abort(), timeoutMs)`). -/
def timerAbortTarget : SignalSource := .internalController

/-- The catch clause of `call`: a DOMException named AbortError becomes the
Timeout error carrying the elapsed budget and endpoint identity; everything
else is rethrown unchanged. -/
def classifyThrown (timeoutMs : Int) (ep : EndpointDefinition) (e : JsError) : ClientError :=
  if e.isDOMException && e.name == "AbortError" then .timeout timeoutMs ep.id ep.path
  else .thrown e

/-- `typeof parsed.status === "string" ? parsed.status : undefined`. -/
def envelopeStatus (parsed : JsValue) : Option String :=
  match getProp parsed "status" with
  | .str s => some s
  | _ => none

/-- `typeof parsed.errorMessage === "string" ? parsed.errorMessage : undefined`. -/
def envelopeErrorMessage (parsed : JsValue) : Option String :=
  match getProp parsed "errorMessage" with
  | .str s => some s
  | _ => none

/-- The fallback ApiError message interpolating the declared status. -/
def apiErrorFallbackMessage (statusValue : String) : String :=
  "Technitium API call failed with status " ++ statusValue

/-- `"response" in parsed && parsed.response !== undefined ? parsed.response : parsed`. -/
def envelopeData (parsed : JsValue) : JsValue :=
  if hasProp parsed "response" && !(getProp parsed "response" matches .undefined) then
    getProp parsed "response"
  else parsed

/-- The success shape of a call (the fields of `ApiCallResult` the claims
talk about; the raw transport handle is omitted). -/
structure ApiCallResult where
  endpoint : EndpointDefinition
  data : JsValue
  status : String
  raw : JsValue
deriving Repr

/-- Classification of a completed 2xx-or-not response (the body of the try
block after fetch, client.ts lines 305-337).  The Api-error guard is the
JS truthiness test `statusValue && statusValue !== "ok"`: a present but
empty-string status is falsy, so it does not raise the Api error; the
success status is `statusValue ?? "ok"`, which keeps a declared empty
string. -/
def classifyResponse (ep : EndpointDefinition) (opts : ApiCallOptions)
    (timeoutMs : Int) (r : HttpResponse) : Except ClientError ApiCallResult :=
  if !responseOk r then
    .error (.http r.status r.statusText ep.id ep.path (safeParseJson r))
  else
    match parseResponse r opts.responseType with
    | .error e => .error (classifyThrown timeoutMs ep e)
    | .ok parsed =>
      let statusValue := envelopeStatus parsed
      match statusValue with
      | some s =>
        if s ≠ "" ∧ s ≠ "ok" then
          .error (.api s ((envelopeErrorMessage parsed).getD (apiErrorFallbackMessage s))
            ep.id ep.path parsed)
        else
          .ok ⟨ep, envelopeData parsed, s, parsed⟩
      | none => .ok ⟨ep, envelopeData parsed, "ok", parsed⟩

/-- `options.timeoutMs ?? this.requestTimeoutMs`. -/
def effectiveTimeout (st : ClientState) (opts : ApiCallOptions) : Int :=
  opts.timeoutMs.getD st.requestTimeoutMs

/-- Embedding of `call` (client.ts lines 280-352) for a resolved endpoint:
the URL (with the fail-fast token check) is built before the transport runs,
so a build failure is independent of the transport outcome; afterwards the
outcome is classified by the try/catch body.  `call` never mutates the
client state. -/
def callModel (st : ClientState) (init : SearchParams) (ep : EndpointDefinition)
    (opts : ApiCallOptions) (outcome : TransportOutcome) :
    Except ClientError ApiCallResult :=
  match buildUrlQuery st init ep opts with
  | .error e => .error e
  | .ok _ =>
    let timeoutMs := effectiveTimeout st opts
    match outcome with
    | .response r => classifyResponse ep opts timeoutMs r
    | .aborted reason => .error (classifyThrown timeoutMs ep (rejectionOfAbort reason))
    | .failure e => .error (classifyThrown timeoutMs ep e)

/-! ## logout (client.ts lines 173-187) -/

/-- The options `logout` passes to `call`: the chosen token as an explicit
query parameter, with automatic token injection disabled. -/
def logoutCallOptions (sessionToken : String) : ApiCallOptions :=
  { query := some [("token", .str sessionToken)], includeToken := some false }

/-- JS falsiness of the optional `token` argument (`if (!token)`). -/
def falsyOptStr (v : Option String) : Bool :=
  match v with
  | none => true
  | some s => s == ""

/-- Embedding of `logout`: resolve `token ?? this.sessionToken ??
this.auth?.token`, fail fast when falsy, run the call, and clear the
session token (provenance `explicit`) only when no explicit argument was
given and the call succeeded.  Returns the state after the operation
together with its result. -/
def logoutModel (st : ClientState) (init : SearchParams) (ep : EndpointDefinition)
    (tokenArg : Option String) (outcome : TransportOutcome) :
    ClientState × Except ClientError Unit :=
  let sessionToken := jsOrStr tokenArg (jsOrStr st.sessionToken st.authToken)
  match sessionToken with
  | none => (st, .error (.configuration none none))
  | some t =>
    if t = "" then (st, .error (.configuration none none))
    else
      match callModel st init ep (logoutCallOptions t) outcome with
      | .error e => (st, .error e)
      | .ok _ =>
        if falsyOptStr tokenArg then
          ({ st with sessionToken := none, tokenSource := .explicit }, .ok ())
        else (st, .ok ())

/-! ## Configuration model (config module, src/unnamed/part_000)

The four typed sections of `Config`.  Numbers are integers (the only
numeric field, `timeoutMs`, holds integer millisecond budgets). -/

structure AppSection where
  name : String
  version : String
  description : String
deriving Repr, DecidableEq

structure ApiSection where
  baseUrl : String
  timeoutMs : Int
  verifyTls : Bool
deriving Repr, DecidableEq

structure AuthSection where
  username : String
  password : String
  token : String
  totp : String
deriving Repr, DecidableEq

structure CliSection where
  defaultOutputFormat : String
  prettyPrintJson : Bool
  colorizeJson : Bool
deriving Repr, DecidableEq

structure Config where
  app : AppSection
  api : ApiSection
  auth : AuthSection
  cli : CliSection
deriving Repr, DecidableEq

/-- Partial sections (`Partial<...>`): every field optional. -/
structure AppPatch where
  name : Option String := none
  version : Option String := none
  description : Option String := none
deriving Repr, DecidableEq

structure ApiPatch where
  baseUrl : Option String := none
  timeoutMs : Option Int := none
  verifyTls : Option Bool := none
deriving Repr, DecidableEq

structure AuthPatch where
  username : Option String := none
  password : Option String := none
  token : Option String := none
  totp : Option String := none
deriving Repr, DecidableEq

structure CliPatch where
  defaultOutputFormat : Option String := none
  prettyPrintJson : Option Bool := none
  colorizeJson : Option Bool := none
deriving Repr, DecidableEq

/-- `ConfigPatch`: each section optionally a partial section. -/
structure ConfigPatch where
  app : Option AppPatch := none
  api : Option ApiPatch := none
  auth : Option AuthPatch := none
  cli : Option CliPatch := none
deriving Repr, DecidableEq

/-- The embedded compiled-in defaults (`fallbackConfig`). -/
def fallbackConfig : Config :=
  { app := { name := "technitiumdns-cli", version := "0.2.1",
             description := "Interact with Technitium DNS Server over its HTTP API" }
  , api := { baseUrl := "http://localhost:5380/api", timeoutMs := 15000, verifyTls := true }
  , auth := { username := "admin", password := "change-me", token := "", totp := "" }
  , cli := { defaultOutputFormat := "json", prettyPrintJson := true, colorizeJson := true } }

/-! `mergeSection` walks the keys of the overlay and overrides base fields
whose overlay value is defined.  On the typed patches this is exactly a
field-wise `Option.getD`; one function per section (the overlay argument is
optional, mirroring `overlay?: Partial<T>`). -/

def mergeApp (base : AppSection) : Option AppPatch → AppSection
  | none => base
  | some o =>
    { name := o.name.getD base.name
    , version := o.version.getD base.version
    , description := o.description.getD base.description }

def mergeApi (base : ApiSection) : Option ApiPatch → ApiSection
  | none => base
  | some o =>
    { baseUrl := o.baseUrl.getD base.baseUrl
    , timeoutMs := o.timeoutMs.getD base.timeoutMs
    , verifyTls := o.verifyTls.getD base.verifyTls }

def mergeAuth (base : AuthSection) : Option AuthPatch → AuthSection
  | none => base
  | some o =>
    { username := o.username.getD base.username
    , password := o.password.getD base.password
    , token := o.token.getD base.token
    , totp := o.totp.getD base.totp }

def mergeCli (base : CliSection) : Option CliPatch → CliSection
  | none => base
  | some o =>
    { defaultOutputFormat := o.defaultOutputFormat.getD base.defaultOutputFormat
    , prettyPrintJson := o.prettyPrintJson.getD base.prettyPrintJson
    , colorizeJson := o.colorizeJson.getD base.colorizeJson }

/-- One overlay step of `mergeConfig`. -/
def mergeOverlay (base : Config) (overlay : ConfigPatch) : Config :=
  { app := mergeApp base.app overlay.app
  , api := mergeApi base.api overlay.api
  , auth := mergeAuth base.auth overlay.auth
  , cli := mergeCli base.cli overlay.cli }

/-- Embedding of `mergeConfig(base, ...overlays)` (cloning is identity in a
pure model; an absent overlay is skipped). -/
def mergeConfig (base : Config) (overlays : List (Option ConfigPatch)) : Config :=
  overlays.foldl (fun acc o => match o with | none => acc | some p => mergeOverlay acc p) base

/-! ## Environment-variable overrides (loadEnvOverrides / parseEnvValue) -/

/-- Model of the JS `Number(raw)` conversion followed by the
`Number.isFinite` test, restricted to the optionally signed decimal integer
literals that can reach the integer-valued configuration fields: the empty
(or all-whitespace) string converts to 0, integer literals to their value,
anything else is not finite in this model (`none`). -/
def jsFiniteNumber (raw : String) : Option Int :=
  let t := charTrim raw.data
  if t = [] then some 0 else charsToInt? t

/-- The numeric branch of `parseEnvValue`: non-finite parses fall back to
the embedded default for the field. -/
def parseEnvNumber (raw : String) (baseline : Int) : Int :=
  (jsFiniteNumber raw).getD baseline

/-- The boolean branch of `parseEnvValue`. -/
def parseEnvBool (raw : String) (baseline : Bool) : Bool :=
  let normalized : String := ⟨(charTrim raw.data).map Char.toLower⟩
  if ["1", "true", "yes", "on"].contains normalized then true
  else if ["0", "false", "no", "off"].contains normalized then false
  else baseline

/-- Per-section assignment of one recognized environment override, typed by
the `ENV_KEY_MAP` canonical field name; the branch taken by `parseEnvValue`
is fixed by the type of the embedded default for the field. -/
def applyEnvApp (p : AppPatch) (property raw : String) : AppPatch :=
  if property = "name" then { p with name := some raw }
  else if property = "version" then { p with version := some raw }
  else if property = "description" then { p with description := some raw }
  else p

def applyEnvApi (p : ApiPatch) (property raw : String) : ApiPatch :=
  if property = "baseUrl" then { p with baseUrl := some raw }
  else if property = "timeoutMs" then
    { p with timeoutMs := some (parseEnvNumber raw fallbackConfig.api.timeoutMs) }
  else if property = "verifyTls" then
    { p with verifyTls := some (parseEnvBool raw fallbackConfig.api.verifyTls) }
  else p

def applyEnvAuth (p : AuthPatch) (property raw : String) : AuthPatch :=
  if property = "username" then { p with username := some raw }
  else if property = "password" then { p with password := some raw }
  else if property = "token" then { p with token := some raw }
  else if property = "totp" then { p with totp := some raw }
  else p

def applyEnvCli (p : CliPatch) (property raw : String) : CliPatch :=
  if property = "defaultOutputFormat" then { p with defaultOutputFormat := some raw }
  else if property = "prettyPrintJson" then
    { p with prettyPrintJson := some (parseEnvBool raw fallbackConfig.cli.prettyPrintJson) }
  else if property = "colorizeJson" then
    { p with colorizeJson := some (parseEnvBool raw fallbackConfig.cli.colorizeJson) }
  else p

/-- The `ENV_KEY_MAP` property tables, one per section: upper-cased
environment property name to canonical field name. -/
def envKeyMapApp (propertyKey : String) : Option String :=
  if propertyKey = "NAME" then some "name"
  else if propertyKey = "VERSION" then some "version"
  else if propertyKey = "DESCRIPTION" then some "description"
  else none

def envKeyMapApi (propertyKey : String) : Option String :=
  if propertyKey = "BASEURL" then some "baseUrl"
  else if propertyKey = "TIMEOUTMS" then some "timeoutMs"
  else if propertyKey = "VERIFYTLS" then some "verifyTls"
  else none

def envKeyMapAuth (propertyKey : String) : Option String :=
  if propertyKey = "USERNAME" then some "username"
  else if propertyKey = "PASSWORD" then some "password"
  else if propertyKey = "TOKEN" then some "token"
  else if propertyKey = "TOTP" then some "totp"
  else none

def envKeyMapCli (propertyKey : String) : Option String :=
  if propertyKey = "DEFAULTOUTPUTFORMAT" then some "defaultOutputFormat"
  else if propertyKey = "PRETTYPRINTJSON" then some "prettyPrintJson"
  else if propertyKey = "COLORIZEJSON" then some "colorizeJson"
  else none

/-- Accumulator of `loadEnvOverrides`: the four per-section override
objects being filled. -/
structure EnvAccumulator where
  app : AppPatch := {}
  api : ApiPatch := {}
  auth : AuthPatch := {}
  cli : CliPatch := {}

/-- One iteration of the `loadEnvOverrides` loop for a defined environment
entry: check the fixed prefix, split the remainder on the double
underscore, map the section case-insensitively and the property through
the per-section table, silently ignoring unknown combinations. -/
def applyEnvEntry (acc : EnvAccumulator) (rawKey rawValue : String) : EnvAccumulator :=
  if !(List.isPrefixOf "TECHNITIUMDNS_CLI_".data rawKey.data) then acc
  else
    let parts := splitOnDoubleUnderscore (rawKey.data.drop "TECHNITIUMDNS_CLI_".data.length)
    let sectionKeyRaw := parts.getD 0 []
    let propertyKeyRaw := parts.getD 1 []
    if sectionKeyRaw = [] || propertyKeyRaw = [] then acc
    else
      let sectionKey : String := ⟨sectionKeyRaw.map Char.toLower⟩
      let propertyKeyUpper : String := ⟨propertyKeyRaw.map Char.toUpper⟩
      if sectionKey = "app" then
        match envKeyMapApp propertyKeyUpper with
        | some property => { acc with app := applyEnvApp acc.app property rawValue }
        | none => acc
      else if sectionKey = "api" then
        match envKeyMapApi propertyKeyUpper with
        | some property => { acc with api := applyEnvApi acc.api property rawValue }
        | none => acc
      else if sectionKey = "auth" then
        match envKeyMapAuth propertyKeyUpper with
        | some property => { acc with auth := applyEnvAuth acc.auth property rawValue }
        | none => acc
      else if sectionKey = "cli" then
        match envKeyMapCli propertyKeyUpper with
        | some property => { acc with cli := applyEnvCli acc.cli property rawValue }
        | none => acc
      else acc

/-- A section override object is attached to the returned patch only when
at least one of its keys was set. -/
def appPatchNonEmpty (p : AppPatch) : Bool :=
  p.name.isSome || p.version.isSome || p.description.isSome

def apiPatchNonEmpty (p : ApiPatch) : Bool :=
  p.baseUrl.isSome || p.timeoutMs.isSome || p.verifyTls.isSome

def authPatchNonEmpty (p : AuthPatch) : Bool :=
  p.username.isSome || p.password.isSome || p.token.isSome || p.totp.isSome

def cliPatchNonEmpty (p : CliPatch) : Bool :=
  p.defaultOutputFormat.isSome || p.prettyPrintJson.isSome || p.colorizeJson.isSome

/-- Embedding of `loadEnvOverrides` over the process environment, given as
a list of defined key/value entries in enumeration order. -/
def loadEnvOverrides (env : List (String × String)) : ConfigPatch :=
  let acc := env.foldl (fun acc kv => applyEnvEntry acc kv.1 kv.2) {}
  { app := if appPatchNonEmpty acc.app then some acc.app else none
  , api := if apiPatchNonEmpty acc.api then some acc.api else none
  , auth := if authPatchNonEmpty acc.auth then some acc.auth else none
  , cli := if cliPatchNonEmpty acc.cli then some acc.cli else none }

/-- Embedding of `loadConfig`: defaults, then the persisted-file patch,
then the environment overrides (the file layer is passed in already
normalized; read errors make it the empty patch). -/
def loadConfig (filePatch : ConfigPatch) (env : List (String × String)) : Config :=
  mergeConfig fallbackConfig [some filePatch, some (loadEnvOverrides env)]

/-! ## Persisted TOML format (serializeConfig / normalizePatch)

`serializeConfig` strips undefined fields, stringifies with the TOML
library and then deletes decimal digit grouping with the global regex
replace.  The library itself is an external collaborator; we model it for
the flat four-section scalar documents this module writes: integers are
printed with underscore digit grouping (the behavior the regex replace in
the source compensates for), strings as basic quoted strings with the
standard escapes, booleans literally. -/

inductive TomlValue where
  | str (s : String)
  | int (n : Int)
  | bool (b : Bool)
deriving Repr, DecidableEq

/-- Escapes of a TOML basic string. -/
def escapeTomlChar (c : Char) : String :=
  if c = '"' then "\\\""
  else if c = '\\' then "\\\\"
  else if c = '\n' then "\\n"
  else if c = '\r' then "\\r"
  else if c = '\t' then "\\t"
  else String.singleton c

def escapeToml (s : String) : String :=
  String.join (s.data.map escapeTomlChar)

/-- Inverse scan of `escapeToml` (parser side). -/
def unescapeTomlChars : List Char → List Char
  | [] => []
  | '\\' :: c :: rest =>
    (if c = 'n' then '\n' else if c = 'r' then '\r' else if c = 't' then '\t' else c)
      :: unescapeTomlChars rest
  | c :: rest => c :: unescapeTomlChars rest

def unescapeToml (s : String) : String :=
  ⟨unescapeTomlChars s.data⟩

/-- Chunks of three characters. -/
def chunksOfThree : List Char → List (List Char)
  | [] => []
  | a :: b :: c :: rest => [a, b, c] :: chunksOfThree rest
  | xs => [xs]

/-- Underscore digit grouping of a digit run, every three digits from the
right (the TOML stringifier emits `15000` as `15_000`). -/
def groupDigitChars (ds : List Char) : List Char :=
  ((chunksOfThree ds.reverse).intersperse ['_']).flatten.reverse

/-- Decimal rendering of an integer with digit grouping. -/
def tomlIntString (n : Int) : String :=
  if n < 0 then "-" ++ ⟨groupDigitChars (toString (-n)).data⟩
  else ⟨groupDigitChars (toString n).data⟩

def tomlValueString : TomlValue → String
  | .str s => "\"" ++ escapeToml s ++ "\""
  | .int n => tomlIntString n
  | .bool true => "true"
  | .bool false => "false"

/-- A flat TOML document: sections of key/value pairs. -/
abbrev TomlDoc := List (String × List (String × TomlValue))

/-- Model of the TOML stringifier on flat scalar documents. -/
def tomlStringify (doc : TomlDoc) : String :=
  String.join (doc.map (fun sec =>
    "[" ++ sec.1 ++ "]\n"
      ++ String.join (sec.2.map (fun kv => kv.1 ++ " = " ++ tomlValueString kv.2 ++ "\n"))
      ++ "\n"))

/-- Embedding of `stripUndefined`: keep exactly the fields whose value is
defined. -/
def stripUndefined (fields : List (String × Option TomlValue)) :
    List (String × TomlValue) :=
  fields.filterMap (fun kv => kv.2.map (fun v => (kv.1, v)))

/-- The four sections of a `Config` as written by `serializeConfig` (every
field of the typed `Config` is defined, so each value is `some`). -/
def configPayloadRaw (c : Config) : List (String × List (String × Option TomlValue)) :=
  [ ("app",
      [ ("name", some (.str c.app.name))
      , ("version", some (.str c.app.version))
      , ("description", some (.str c.app.description)) ])
  , ("api",
      [ ("baseUrl", some (.str c.api.baseUrl))
      , ("timeoutMs", some (.int c.api.timeoutMs))
      , ("verifyTls", some (.bool c.api.verifyTls)) ])
  , ("auth",
      [ ("username", some (.str c.auth.username))
      , ("password", some (.str c.auth.password))
      , ("token", some (.str c.auth.token))
      , ("totp", some (.str c.auth.totp)) ])
  , ("cli",
      [ ("defaultOutputFormat", some (.str c.cli.defaultOutputFormat))
      , ("prettyPrintJson", some (.bool c.cli.prettyPrintJson))
      , ("colorizeJson", some (.bool c.cli.colorizeJson)) ]) ]

/-- The regex replace `(\d)_(?=\d)` applied globally: delete every
underscore standing between two decimal digits, anywhere in the serialized
document. -/
def removeDigitGroupingChars : List Char → List Char
  | a :: '_' :: b :: rest =>
    if a.isDigit && b.isDigit then a :: removeDigitGroupingChars (b :: rest)
    else a :: '_' :: removeDigitGroupingChars (b :: rest)
  | c :: rest => c :: removeDigitGroupingChars rest
  | [] => []

def removeDigitGrouping (s : String) : String :=
  ⟨removeDigitGroupingChars s.data⟩

/-- Embedding of `serializeConfig`: strip undefined fields, stringify, then
apply the digit-grouping removal to the whole document. -/
def serializeConfig (c : Config) : String :=
  removeDigitGrouping (tomlStringify
    ((configPayloadRaw c).map (fun sec => (sec.1, stripUndefined sec.2))))

/-! Parsing side: the TOML parser (external collaborator) on the documents
this module writes, followed by `normalizePatch` and the typed reads the
merge performs. -/

/-- Parse one value token written by the model stringifier. -/
def tomlParseValue (cs : List Char) : Option TomlValue :=
  match cs with
  | '"' :: rest =>
    match rest.reverse with
    | '"' :: mid => some (.str ⟨unescapeTomlChars mid.reverse⟩)
    | _ => none
  | _ =>
    if cs = "true".data then some (.bool true)
    else if cs = "false".data then some (.bool false)
    else
      match charsToInt? (cs.filter (fun c => c ≠ '_')) with
      | some n => some (.int n)
      | none => none

/-- Parse one line: a section header, a key/value pair, or nothing. -/
inductive TomlLine where
  | header (name : String)
  | pair (key : String) (value : TomlValue)
  | blank

def tomlParseLine (line : List Char) : TomlLine :=
  let t := charTrim line
  if t = [] then .blank
  else
    match t with
    | '[' :: rest =>
      match rest.reverse with
      | ']' :: mid => .header ⟨mid.reverse⟩
      | _ => .blank
    | _ =>
      match splitOnSpaceEqSpace t with
      | key :: rest =>
        if rest.isEmpty then .blank
        else
          match tomlParseValue ((rest.intersperse " = ".data).flatten) with
          | some v => .pair ⟨key⟩ v
          | none => .blank
      | [] => .blank

/-- Fold of the line parser into a flat document (pairs before the first
header are dropped, sections accumulate in order). -/
def tomlParseLines (lines : List (List Char)) : TomlDoc :=
  let step := fun (st : TomlDoc × Option (String × List (String × TomlValue))) line =>
    match tomlParseLine line with
    | .header name =>
      match st.2 with
      | some sec => (st.1 ++ [sec], some (name, []))
      | none => (st.1, some (name, []))
    | .pair k v =>
      match st.2 with
      | some sec => (st.1, some (sec.1, sec.2 ++ [(k, v)]))
      | none => st
    | .blank => st
  let done := lines.foldl step ([], none)
  match done.2 with
  | some sec => done.1 ++ [sec]
  | none => done.1

def tomlParse (s : String) : TomlDoc :=
  tomlParseLines (splitOnChar '\n' s.data)

/-- Typed reads used when the merge consumes a parsed section (the source
casts the raw table to a partial section and then reads its fields). -/
def tomlFindStr (kvs : List (String × TomlValue)) (k : String) : Option String :=
  match (kvs.find? (fun kv => kv.1 == k)).map Prod.snd with
  | some (.str s) => some s
  | _ => none

def tomlFindInt (kvs : List (String × TomlValue)) (k : String) : Option Int :=
  match (kvs.find? (fun kv => kv.1 == k)).map Prod.snd with
  | some (.int n) => some n
  | _ => none

def tomlFindBool (kvs : List (String × TomlValue)) (k : String) : Option Bool :=
  match (kvs.find? (fun kv => kv.1 == k)).map Prod.snd with
  | some (.bool b) => some b
  | _ => none

/-- Embedding of `normalizePatch` on a parsed document: a section
contributes a partial section exactly when it is present as a table. -/
def normalizePatch (doc : TomlDoc) : ConfigPatch :=
  let sec := fun name => (doc.find? (fun s => s.1 == name)).map Prod.snd
  { app := (sec "app").map (fun kvs =>
      { name := tomlFindStr kvs "name"
      , version := tomlFindStr kvs "version"
      , description := tomlFindStr kvs "description" })
  , api := (sec "api").map (fun kvs =>
      { baseUrl := tomlFindStr kvs "baseUrl"
      , timeoutMs := tomlFindInt kvs "timeoutMs"
      , verifyTls := tomlFindBool kvs "verifyTls" })
  , auth := (sec "auth").map (fun kvs =>
      { username := tomlFindStr kvs "username"
      , password := tomlFindStr kvs "password"
      , token := tomlFindStr kvs "token"
      , totp := tomlFindStr kvs "totp" })
  , cli := (sec "cli").map (fun kvs =>
      { defaultOutputFormat := tomlFindStr kvs "defaultOutputFormat"
      , prettyPrintJson := tomlFindBool kvs "prettyPrintJson"
      , colorizeJson := tomlFindBool kvs "colorizeJson" }) }

/-- Serialize-then-reparse round trip as the persisted layer experiences
it: write with `serializeConfig`, read back with the TOML parse and
`normalizePatch`, and resolve over the embedded defaults exactly as
`loadUserConfig`/`mergeConfig` do. -/
def roundTripConfig (c : Config) : Config :=
  mergeConfig fallbackConfig [some (normalizePatch (tomlParse (serializeConfig c)))]

/-! ## General lemmas about the URLSearchParams model -/

theorem spLookup_spSet (ps : SearchParams) (k v : String) :
    spLookup (spSet ps k v) k = some v := by
  induction ps with
  | nil => simp [spSet, spLookup, List.find?]
  | cons hd tl ih =>
    by_cases h : hd.1 == k
    · simp [spSet, h, spLookup, List.find?]
    · simpa [spSet, h, spLookup, List.find?] using ih

theorem spHas_spSet (ps : SearchParams) (k v : String) :
    spHas (spSet ps k v) k = true := by
  induction ps with
  | nil => simp [spSet, spHas]
  | cons hd tl ih =>
    by_cases h : hd.1 == k
    · simp [spSet, h, spHas]
    · simpa [spSet, h, spHas] using ih

theorem spAppend_foldl (ws : List String) (ps : SearchParams) (k : String) :
    ws.foldl (fun acc w => spAppend acc k w) ps = ps ++ ws.map (fun w => (k, w)) := by
  induction ws generalizing ps with
  | nil => simp
  | cons w ws ih =>
    rw [List.foldl_cons, ih (spAppend ps k w)]
    simp [spAppend]

/-! ## Claim theorems -/

/-- Sample endpoint with the token requirement set, for concrete witnesses. -/
def epZonesList : EndpointDefinition :=
  { id := "zones.list", method := "GET", path := "/api/zones/list",
    requiresToken := some true }

/-- The token that ends up attached to the built query under the key
`token`, when the URL builds at all. -/
def attachedToken (st : ClientState) (init : SearchParams) (ep : EndpointDefinition)
    (opts : ApiCallOptions) : Option String :=
  match buildUrlQuery st init ep opts with
  | .ok ps => spLookup ps "token"
  | .error _ => none

/-- C1: on a call whose token-inclusion condition holds (token inclusion is
effective and the caller did not already supply a `token` query parameter),
the token attached to the query string follows the precedence explicit
per-call token argument, else the current session token, else the
configured fallback token; in particular with explicit token E it is E,
without an explicit token it is the session token S, and without a session
token it is the configured fallback F. -/
theorem c1_token_precedence :
    (∀ (st : ClientState) (init : SearchParams) (ep : EndpointDefinition)
        (opts : ApiCallOptions) (e : String),
      shouldIncludeToken ep opts = true →
      spHas (preTokenParams init ep opts) "token" = false →
      opts.token = some e → e ≠ "" →
      attachedToken st init ep opts = some e)
    ∧ (∀ (st : ClientState) (init : SearchParams) (ep : EndpointDefinition)
        (opts : ApiCallOptions) (s : String),
      shouldIncludeToken ep opts = true →
      spHas (preTokenParams init ep opts) "token" = false →
      opts.token = none → st.sessionToken = some s → s ≠ "" →
      attachedToken st init ep opts = some s)
    ∧ (∀ (st : ClientState) (init : SearchParams) (ep : EndpointDefinition)
        (opts : ApiCallOptions) (f : String),
      shouldIncludeToken ep opts = true →
      spHas (preTokenParams init ep opts) "token" = false →
      opts.token = none → st.sessionToken = none → st.authToken = some f → f ≠ "" →
      attachedToken st init ep opts = some f) := by
  refine ⟨?_, ?_, ?_⟩
  · intro st init ep opts e hinc hfree htok hne
    simp [attachedToken, buildUrlQuery, hinc, hfree, resolvedToken, htok, jsOrStr, hne,
      spLookup_spSet]
  · intro st init ep opts s hinc hfree htok hsess hne
    simp [attachedToken, buildUrlQuery, hinc, hfree, resolvedToken, htok, hsess, jsOrStr, hne,
      spLookup_spSet]
  · intro st init ep opts f hinc hfree htok hsess hauth hne
    simp [attachedToken, buildUrlQuery, hinc, hfree, resolvedToken, htok, hsess, hauth, jsOrStr,
      hne, spLookup_spSet]

/-- Witness for C1 at the inputs of the spec example: session token S,
configured fallback F, explicit token E. -/
theorem c1_token_precedence_witness :
    attachedToken { sessionToken := some "S", authToken := some "F" } [] epZonesList
        { token := some "E" } = some "E"
    ∧ attachedToken { sessionToken := some "S", authToken := some "F" } [] epZonesList
        {} = some "S"
    ∧ attachedToken { sessionToken := none, authToken := some "F" } [] epZonesList
        {} = some "F" :=
  ⟨c1_token_precedence.1 _ [] epZonesList _ "E" (by decide) (by decide) rfl (by decide),
   c1_token_precedence.2.1 _ [] epZonesList _ "S" (by decide) (by decide) rfl rfl (by decide),
   c1_token_precedence.2.2 _ [] epZonesList _ "F" (by decide) (by decide) rfl rfl rfl
     (by decide)⟩

/-- Sample endpoint with no token requirement and no default query. -/
def epPlain : EndpointDefinition :=
  { id := "dns.resolve", method := "GET", path := "/api/dnsClient/resolve" }

/-- C5: array-valued query parameters are appended as repeated keys, one
entry per element in order (a call with tag = [a, b] produces the two
entries tag=a and tag=b, not one comma-joined entry), and scalars encode
with booleans as the literal strings true/false, null/undefined as the
empty string, and everything else via its default string form. -/
theorem c5_query_encoding :
    (∀ (k : String) (vs : List String) (ps : SearchParams),
      applyQueryEntry ps k (.arr (vs.map .str)) = ps ++ vs.map (fun v => (k, v)))
    ∧ preTokenParams [] epPlain { query := some [("tag", .arr [.str "a", .str "b"])] }
        = [("tag", "a"), ("tag", "b")]
    ∧ preTokenParams [] epPlain { query := some [("tag", .arr [.str "a", .str "b"])] }
        ≠ [("tag", "a,b")]
    ∧ toQueryStringValue (.bool true) = "true"
    ∧ toQueryStringValue (.bool false) = "false"
    ∧ toQueryStringValue .null = ""
    ∧ toQueryStringValue .undefined = ""
    ∧ (∀ s, toQueryStringValue (.str s) = s)
    ∧ (∀ n, toQueryStringValue (.num n) = toString n) := by
  refine ⟨?_, by decide, by decide, rfl, rfl, rfl, rfl, fun s => rfl, fun n => rfl⟩
  intro k vs ps
  have hkept : (queryEntryKept ∘ QueryValue.str) = fun _ => true := funext fun s => rfl
  simp [applyQueryEntry, List.filter_map, hkept, List.filter_true,
    List.foldl_map, toQueryStringValue, spAppend_foldl]

/-- A successful 2xx JSON envelope response, for concrete call evaluations. -/
def okEnvelopeResponse : HttpResponse :=
  { status := 200, statusText := "OK", contentType := some "application/json",
    json := .ok (.obj [("status", .str "ok"), ("response", .obj [("x", .num 1)])]) }

/-- C2 counterexample: a call to an endpoint whose `requiresToken` flag is
set, made with the per-call override `includeToken := false` and no token
available from any of the three sources, does not fail with a Configuration
error — the request is built with an empty query (no token attached) and
the call completes against the transport.  The fail-fast guarantee of the
claim is therefore conditional on the effective inclusion condition, not on
the endpoint flag alone. -/
theorem c2_counterexample :
    epZonesList.requiresToken = some true
    ∧ resolvedToken {} { includeToken := some false } = none
    ∧ buildUrlQuery {} [] epZonesList { includeToken := some false } = .ok []
    ∧ callModel {} [] epZonesList { includeToken := some false }
        (.response okEnvelopeResponse)
      = .ok ⟨epZonesList, .obj [("x", .num 1)], "ok",
          .obj [("status", .str "ok"), ("response", .obj [("x", .num 1)])]⟩ :=
  ⟨rfl, rfl, rfl, rfl⟩

/-- C2 amended: when token inclusion is effective for the call (the
per-call override, else the endpoint flag) and the caller did not supply a
`token` query parameter, a falsy resolved token (none of the three sources
supplies a non-empty value) makes the call fail with a Configuration error
carrying the endpoint identity, independently of anything the transport
would do (no network I/O); moreover every call with effective token
inclusion that builds successfully carries a `token` query parameter. -/
theorem c2_failfast_amended :
    (∀ (st : ClientState) (init : SearchParams) (ep : EndpointDefinition)
        (opts : ApiCallOptions),
      shouldIncludeToken ep opts = true →
      spHas (preTokenParams init ep opts) "token" = false →
      truthyStr (resolvedToken st opts) = false →
      buildUrlQuery st init ep opts = .error (.configuration (some ep.id) (some ep.path))
      ∧ ∀ o1 o2 : TransportOutcome,
          callModel st init ep opts o1 = callModel st init ep opts o2)
    ∧ (∀ (st : ClientState) (init : SearchParams) (ep : EndpointDefinition)
        (opts : ApiCallOptions) (ps : SearchParams),
      shouldIncludeToken ep opts = true →
      buildUrlQuery st init ep opts = .ok ps →
      spHas ps "token" = true) := by
  constructor
  · intro st init ep opts hinc hfree hres
    have hbuild : buildUrlQuery st init ep opts
        = .error (.configuration (some ep.id) (some ep.path)) := by
      rcases hres' : resolvedToken st opts with _ | t
      · simp [buildUrlQuery, hinc, hfree, hres']
      · have ht : t = "" := by simpa [truthyStr, hres'] using hres
        simp [buildUrlQuery, hinc, hfree, hres', ht]
    exact ⟨hbuild, fun o1 o2 => by simp [callModel, hbuild]⟩
  · intro st init ep opts ps hinc hok
    by_cases hfree : spHas (preTokenParams init ep opts) "token" = true
    · have hps : preTokenParams init ep opts = ps := by
        simpa [buildUrlQuery, hinc, hfree] using hok
      rw [← hps]; exact hfree
    · have hfree' : spHas (preTokenParams init ep opts) "token" = false :=
        Bool.not_eq_true _ ▸ eq_false_of_ne_true hfree
      rcases hres' : resolvedToken st opts with _ | t
      · simp [buildUrlQuery, hinc, hfree', hres'] at hok
      · by_cases ht : t = ""
        · simp [buildUrlQuery, hinc, hfree', hres', ht] at hok
        · have hps : spSet (preTokenParams init ep opts) "token" t = ps := by
            simpa [buildUrlQuery, hinc, hfree', hres', ht] using hok
          rw [← hps]; exact spHas_spSet _ _ _

/-- Witness for C2 amended: with no token anywhere and a token-requiring
endpoint (no override), the call fails with the Configuration error for
any transport behavior, and a call holding a session token builds a query
that carries the token parameter. -/
theorem c2_failfast_amended_witness :
    (buildUrlQuery {} [] epZonesList {}
        = .error (.configuration (some "zones.list") (some "/api/zones/list"))
      ∧ ∀ o1 o2 : TransportOutcome,
          callModel {} [] epZonesList {} o1 = callModel {} [] epZonesList {} o2)
    ∧ spHas [("token", "S")] "token" = true :=
  ⟨c2_failfast_amended.1 {} [] epZonesList {} (by decide) (by decide) (by decide),
   c2_failfast_amended.2 { sessionToken := some "S" } [] epZonesList {} [("token", "S")]
     (by decide) rfl⟩

/-- C3 counterexample: with a caller-supplied external cancellation signal
the transport observes only that signal (the timeout controller is not
wired to the fetch at all), yet when the caller aborts with the default
AbortError reason the call is classified as a Timeout error instead of
surfacing the caller's own abort reason — so the Timeout classification is
not restricted to aborts caused by the timeout. -/
theorem c3_counterexample :
    fetchSignalSource { signal := some () } = .externalSignal
    ∧ timerAbortTarget = .internalController
    ∧ callModel {} [] epPlain { signal := some () } (.aborted .defaultAbortError)
      = .error (.timeout 15000 "dns.resolve" "/api/dnsClient/resolve") :=
  ⟨rfl, rfl, rfl⟩

/-- C3 amended: when the caller supplies no external signal the transport
observes the internal timeout controller, so an elapsed budget aborts the
in-flight request and the call fails with the Timeout error carrying the
endpoint identity and the effective budget; any abort whose surfaced
reason is the default AbortError — from the timeout or from a caller abort
without a custom reason — receives the same Timeout classification, while
a caller abort with a custom (non-AbortError) reason is rethrown as the
caller's own reason. -/
theorem c3_timeout_amended :
    (∀ opts : ApiCallOptions, opts.signal = none → fetchSignalSource opts = timerAbortTarget)
    ∧ (∀ (st : ClientState) (init : SearchParams) (ep : EndpointDefinition)
        (opts : ApiCallOptions) (ps : SearchParams),
      buildUrlQuery st init ep opts = .ok ps →
      callModel st init ep opts (.aborted .defaultAbortError)
        = .error (.timeout (effectiveTimeout st opts) ep.id ep.path))
    ∧ (∀ (st : ClientState) (init : SearchParams) (ep : EndpointDefinition)
        (opts : ApiCallOptions) (ps : SearchParams) (e : JsError),
      buildUrlQuery st init ep opts = .ok ps →
      (e.isDOMException && e.name == "AbortError") = false →
      callModel st init ep opts (.aborted (.custom e)) = .error (.thrown e)) := by
  refine ⟨?_, ?_, ?_⟩
  · intro opts h
    simp [fetchSignalSource, h, timerAbortTarget]
  · intro st init ep opts ps hok
    simp [callModel, hok, rejectionOfAbort, classifyThrown]
  · intro st init ep opts ps e hok habort
    simp [callModel, hok, rejectionOfAbort, classifyThrown, habort]

/-- Witness for C3 amended: a plain call (no external signal) that times
out is classified as a Timeout error carrying the endpoint identity and
the 15000 ms budget, and a caller abort with a custom error is surfaced
unchanged. -/
theorem c3_timeout_amended_witness :
    fetchSignalSource ({} : ApiCallOptions) = timerAbortTarget
    ∧ callModel {} [] epPlain {} (.aborted .defaultAbortError)
      = .error (.timeout 15000 "dns.resolve" "/api/dnsClient/resolve")
    ∧ callModel {} [] epPlain {} (.aborted (.custom ⟨false, "Error", "caller cancelled"⟩))
      = .error (.thrown ⟨false, "Error", "caller cancelled"⟩) :=
  ⟨c3_timeout_amended.1 {} rfl,
   c3_timeout_amended.2.1 {} [] epPlain {} [] rfl,
   c3_timeout_amended.2.2 {} [] epPlain {} [] ⟨false, "Error", "caller cancelled"⟩ rfl
     (by decide)⟩

/-- A 2xx JSON response whose envelope declares the empty string as its
status (present, and not the literal "ok"). -/
def emptyStatusResponse : HttpResponse :=
  { status := 200, statusText := "OK", contentType := some "application/json",
    json := .ok (.obj [("status", .str "")]) }

/-- C4 counterexample: a 2xx response whose decoded envelope carries the
status field present with the empty string — a status that is not the
literal "ok" — is not classified as an Api error: the truthiness guard
treats the empty string as falsy, so the call succeeds, with the declared
empty status kept (not normalized to "ok"). -/
theorem c4_counterexample :
    envelopeStatus (.obj [("status", .str "")]) = some ""
    ∧ ("" : String) ≠ "ok"
    ∧ callModel {} [] epPlain {} (.response emptyStatusResponse)
      = .ok ⟨epPlain, .obj [("status", .str "")], "", .obj [("status", .str "")]⟩ :=
  ⟨rfl, by decide, rfl⟩

/-- C4 amended: classification of a completed transport response is
three-tier: a non-2xx status yields the Http error carrying that status
(whatever the body looks like); a 2xx response whose decoded envelope
carries a status field that is a non-empty string other than "ok" yields
the Api error carrying the declared status and its message; otherwise the
call succeeds with data equal to the envelope's nested response field when
present (and defined), else the whole envelope, and with the declared
status kept when present (including the empty string) and normalized to
"ok" only when the envelope omitted it. -/
theorem c4_response_classification :
    (∀ (st : ClientState) (init : SearchParams) (ep : EndpointDefinition)
        (opts : ApiCallOptions) (ps : SearchParams) (r : HttpResponse),
      buildUrlQuery st init ep opts = .ok ps →
      responseOk r = false →
      callModel st init ep opts (.response r)
        = .error (.http r.status r.statusText ep.id ep.path (safeParseJson r)))
    ∧ (∀ (st : ClientState) (init : SearchParams) (ep : EndpointDefinition)
        (opts : ApiCallOptions) (ps : SearchParams) (r : HttpResponse)
        (parsed : JsValue) (s : String),
      buildUrlQuery st init ep opts = .ok ps →
      responseOk r = true →
      parseResponse r opts.responseType = .ok parsed →
      envelopeStatus parsed = some s → s ≠ "" → s ≠ "ok" →
      callModel st init ep opts (.response r)
        = .error (.api s ((envelopeErrorMessage parsed).getD (apiErrorFallbackMessage s))
            ep.id ep.path parsed))
    ∧ (∀ (st : ClientState) (init : SearchParams) (ep : EndpointDefinition)
        (opts : ApiCallOptions) (ps : SearchParams) (r : HttpResponse)
        (parsed : JsValue),
      buildUrlQuery st init ep opts = .ok ps →
      responseOk r = true →
      parseResponse r opts.responseType = .ok parsed →
      (envelopeStatus parsed = none ∨ envelopeStatus parsed = some ""
        ∨ envelopeStatus parsed = some "ok") →
      callModel st init ep opts (.response r)
        = .ok ⟨ep, envelopeData parsed, (envelopeStatus parsed).getD "ok", parsed⟩) := by
  refine ⟨?_, ?_, ?_⟩
  · intro st init ep opts ps r hurl hko
    simp [callModel, hurl, classifyResponse, hko]
  · intro st init ep opts ps r parsed s hurl hok hp hs hne0 hne
    simp [callModel, hurl, classifyResponse, hok, hp, hs, hne0, hne]
  · intro st init ep opts ps r parsed hurl hok hp hs
    rcases hs with hs | hs | hs <;> simp [callModel, hurl, classifyResponse, hok, hp, hs]

/-- A 2xx response whose envelope declares an error status with a message. -/
def apiErrorResponse : HttpResponse :=
  { status := 200, statusText := "OK", contentType := some "application/json",
    json := .ok (.obj [("status", .str "error"), ("errorMessage", .str "bad zone")]) }

/-- A 404 transport response with a non-JSON body. -/
def notFoundResponse : HttpResponse :=
  { status := 404, statusText := "Not Found", contentType := some "text/html",
    bodyText := "<html>not here</html>" }

/-- Witness for C4 amended at the spec examples: a 404 yields the Http
error with status 404 regardless of body shape; a 2xx envelope with the
non-empty status "error" and errorMessage "bad zone" yields the Api error
with message "bad zone"; a 2xx envelope with status "ok" and a nested
response yields that nested object as data. -/
theorem c4_response_classification_witness :
    callModel {} [] epPlain {} (.response notFoundResponse)
      = .error (.http 404 "Not Found" "dns.resolve" "/api/dnsClient/resolve" none)
    ∧ callModel {} [] epPlain {} (.response apiErrorResponse)
      = .error (.api "error" "bad zone" "dns.resolve" "/api/dnsClient/resolve"
          (.obj [("status", .str "error"), ("errorMessage", .str "bad zone")]))
    ∧ callModel {} [] epPlain {} (.response okEnvelopeResponse)
      = .ok ⟨epPlain, .obj [("x", .num 1)], "ok",
          .obj [("status", .str "ok"), ("response", .obj [("x", .num 1)])]⟩ :=
  ⟨c4_response_classification.1 {} [] epPlain {} [] notFoundResponse rfl rfl,
   c4_response_classification.2.1 {} [] epPlain {} [] apiErrorResponse
     (.obj [("status", .str "error"), ("errorMessage", .str "bad zone")]) "error"
     rfl rfl rfl rfl (by decide) (by decide),
   c4_response_classification.2.2 {} [] epPlain {} [] okEnvelopeResponse
     (.obj [("status", .str "ok"), ("response", .obj [("x", .num 1)])])
     rfl rfl rfl (Or.inr (Or.inr rfl))⟩

/-- C6 counterexample: under the explicitly selected json interpretation, a
2xx JSON body whose envelope status is present and is the empty string —
not the literal "ok" — is not classified as an Api error: the decoded
envelope reaches the classification step, but the truthiness guard lets
the falsy empty status through as a success. -/
theorem c6_counterexample :
    parseResponse emptyStatusResponse (some .json) = .ok (.obj [("status", .str "")])
    ∧ envelopeStatus (.obj [("status", .str "")]) = some ""
    ∧ callModel {} [] epPlain { responseType := some .json } (.response emptyStatusResponse)
      = .ok ⟨epPlain, .obj [("status", .str "")], "", .obj [("status", .str "")]⟩ :=
  ⟨rfl, rfl, rfl⟩

/-- C6 amended: the per-call response-type override and the content-type
sniffing govern only the decode step, not the classification: whatever
interpretation was selected, whenever the decoded result of a 2xx response
is an envelope whose status field is present and is a non-empty string
other than "ok", the call is classified as the Api error built from that
envelope (a declared empty-string status is falsy and passes as success
under every interpretation alike). -/
theorem c6_interpretation_independent :
    ∀ (ft : Option ResponseType) (st : ClientState) (init : SearchParams)
      (ep : EndpointDefinition) (opts : ApiCallOptions) (ps : SearchParams)
      (r : HttpResponse) (parsed : JsValue) (s : String),
      opts.responseType = ft →
      buildUrlQuery st init ep opts = .ok ps →
      responseOk r = true →
      parseResponse r ft = .ok parsed →
      envelopeStatus parsed = some s → s ≠ "" → s ≠ "ok" →
      callModel st init ep opts (.response r)
        = .error (.api s ((envelopeErrorMessage parsed).getD (apiErrorFallbackMessage s))
            ep.id ep.path parsed) := by
  intro ft st init ep opts ps r parsed s hft hurl hok hp hs hne0 hne
  subst hft
  simp [callModel, hurl, classifyResponse, hok, hp, hs, hne0, hne]

/-- Witness for C6 amended: with the explicitly selected json
interpretation, a 2xx envelope declaring the non-empty error status is
still classified as the Api error. -/
theorem c6_interpretation_independent_witness :
    callModel {} [] epPlain { responseType := some .json } (.response apiErrorResponse)
      = .error (.api "error" "bad zone" "dns.resolve" "/api/dnsClient/resolve"
          (.obj [("status", .str "error"), ("errorMessage", .str "bad zone")])) :=
  c6_interpretation_independent (some .json) {} [] epPlain { responseType := some .json }
    [] apiErrorResponse
    (.obj [("status", .str "error"), ("errorMessage", .str "bad zone")]) "error"
    rfl rfl rfl rfl rfl (by decide) (by decide)

/-- A 500 response that declares a JSON content type but whose body does
not parse as JSON. -/
def badJsonErrorResponse : HttpResponse :=
  { status := 500, statusText := "Internal Server Error",
    contentType := some "application/json",
    json := .error ⟨false, "SyntaxError", "Unexpected token"⟩ }

/-- C8 counterexample: on a non-2xx response with a JSON content type whose
body fails to decode, the resulting Http error does not omit the payload —
`safeParseJson` substitutes a diagnostic object describing the parse
failure, and that object is carried as the Http error payload. -/
theorem c8_counterexample :
    safeParseJson badJsonErrorResponse
      = some (.obj [("error", .str "Failed to parse error response as JSON"),
          ("cause", .str "Unexpected token")])
    ∧ callModel {} [] epPlain {} (.response badJsonErrorResponse)
      = .error (.http 500 "Internal Server Error" "dns.resolve" "/api/dnsClient/resolve"
          (some (.obj [("error", .str "Failed to parse error response as JSON"),
            ("cause", .str "Unexpected token")]))) :=
  ⟨rfl, rfl⟩

/-- C8 amended: every non-2xx response yields the Http error with the
original status, carrying a best-effort payload: omitted when the response
does not declare a JSON content type, the decoded payload when decoding
succeeds, and a diagnostic object noting the parse failure when decoding
throws — the failure is swallowed in every case and never masks the
primary Http error. -/
theorem c8_http_payload_amended :
    (∀ (st : ClientState) (init : SearchParams) (ep : EndpointDefinition)
        (opts : ApiCallOptions) (ps : SearchParams) (r : HttpResponse),
      buildUrlQuery st init ep opts = .ok ps →
      responseOk r = false →
      callModel st init ep opts (.response r)
        = .error (.http r.status r.statusText ep.id ep.path (safeParseJson r)))
    ∧ (∀ r : HttpResponse, isJsonLike r.contentType = false → safeParseJson r = none)
    ∧ (∀ (r : HttpResponse) (j : JsValue),
      isJsonLike r.contentType = true → r.json = .ok j → safeParseJson r = some j)
    ∧ (∀ (r : HttpResponse) (e : JsError),
      isJsonLike r.contentType = true → r.json = .error e →
      safeParseJson r
        = some (.obj [("error", .str "Failed to parse error response as JSON"),
            ("cause", .str e.message)])) := by
  refine ⟨?_, ?_, ?_, ?_⟩
  · intro st init ep opts ps r hurl hko
    simp [callModel, hurl, classifyResponse, hko]
  · intro r hct
    simp [safeParseJson, hct]
  · intro r j hct hj
    simp [safeParseJson, hct, hj]
  · intro r e hct he
    simp [safeParseJson, hct, he]

/-- Witness for C8 amended at concrete responses: a non-JSON 404 carries no
payload; a JSON 500 with an unparseable body carries the diagnostic
payload, still as the primary Http error. -/
theorem c8_http_payload_amended_witness :
    callModel {} [] epPlain {} (.response notFoundResponse)
      = .error (.http 404 "Not Found" "dns.resolve" "/api/dnsClient/resolve"
          (safeParseJson notFoundResponse))
    ∧ safeParseJson notFoundResponse = none
    ∧ safeParseJson badJsonErrorResponse
      = some (.obj [("error", .str "Failed to parse error response as JSON"),
          ("cause", .str "Unexpected token")]) :=
  ⟨c8_http_payload_amended.1 {} [] epPlain {} [] notFoundResponse rfl rfl,
   c8_http_payload_amended.2.1 notFoundResponse rfl,
   c8_http_payload_amended.2.2.2 badJsonErrorResponse ⟨false, "SyntaxError", "Unexpected token"⟩
     rfl rfl⟩

theorem option_or_getD {α : Type _} (a b : Option α) (d : α) :
    (a.or b).getD d = a.getD (b.getD d) := by
  cases a <;> simp [Option.or]

theorem mergeApp_layers (base : AppSection) (o1 o2 : Option AppPatch) :
    mergeApp (mergeApp base o1) o2 =
      { name := ((o2.bind AppPatch.name).or (o1.bind AppPatch.name)).getD base.name
      , version := ((o2.bind AppPatch.version).or (o1.bind AppPatch.version)).getD base.version
      , description :=
          ((o2.bind AppPatch.description).or (o1.bind AppPatch.description)).getD
            base.description } := by
  cases o1 <;> cases o2 <;> simp [mergeApp, option_or_getD]

theorem mergeApi_layers (base : ApiSection) (o1 o2 : Option ApiPatch) :
    mergeApi (mergeApi base o1) o2 =
      { baseUrl := ((o2.bind ApiPatch.baseUrl).or (o1.bind ApiPatch.baseUrl)).getD base.baseUrl
      , timeoutMs :=
          ((o2.bind ApiPatch.timeoutMs).or (o1.bind ApiPatch.timeoutMs)).getD base.timeoutMs
      , verifyTls :=
          ((o2.bind ApiPatch.verifyTls).or (o1.bind ApiPatch.verifyTls)).getD
            base.verifyTls } := by
  cases o1 <;> cases o2 <;> simp [mergeApi, option_or_getD]

theorem mergeAuth_layers (base : AuthSection) (o1 o2 : Option AuthPatch) :
    mergeAuth (mergeAuth base o1) o2 =
      { username :=
          ((o2.bind AuthPatch.username).or (o1.bind AuthPatch.username)).getD base.username
      , password :=
          ((o2.bind AuthPatch.password).or (o1.bind AuthPatch.password)).getD base.password
      , token := ((o2.bind AuthPatch.token).or (o1.bind AuthPatch.token)).getD base.token
      , totp := ((o2.bind AuthPatch.totp).or (o1.bind AuthPatch.totp)).getD base.totp } := by
  cases o1 <;> cases o2 <;> simp [mergeAuth, option_or_getD]

theorem mergeCli_layers (base : CliSection) (o1 o2 : Option CliPatch) :
    mergeCli (mergeCli base o1) o2 =
      { defaultOutputFormat :=
          ((o2.bind CliPatch.defaultOutputFormat).or
            (o1.bind CliPatch.defaultOutputFormat)).getD base.defaultOutputFormat
      , prettyPrintJson :=
          ((o2.bind CliPatch.prettyPrintJson).or (o1.bind CliPatch.prettyPrintJson)).getD
            base.prettyPrintJson
      , colorizeJson :=
          ((o2.bind CliPatch.colorizeJson).or (o1.bind CliPatch.colorizeJson)).getD
            base.colorizeJson } := by
  cases o1 <;> cases o2 <;> simp [mergeCli, option_or_getD]

/-- C7: configuration resolution layers the persisted-file patch over the
embedded defaults and the environment patch over both: every field of the
resolved configuration equals the environment value when set, else the
file value when set, else the embedded default; concretely for the
timeoutMs example, a default of 15000 with a file value 12000 and the
environment variable TECHNITIUMDNS_CLI_API__TIMEOUTMS set to 9000 resolves
to 9000, without the environment variable to 12000, and with neither
override to 15000. -/
theorem c7_config_precedence :
    (∀ p1 p2 : ConfigPatch,
      mergeConfig fallbackConfig [some p1, some p2] =
        { app :=
            { name :=
                ((p2.app.bind AppPatch.name).or (p1.app.bind AppPatch.name)).getD
                  fallbackConfig.app.name
            , version :=
                ((p2.app.bind AppPatch.version).or (p1.app.bind AppPatch.version)).getD
                  fallbackConfig.app.version
            , description :=
                ((p2.app.bind AppPatch.description).or
                  (p1.app.bind AppPatch.description)).getD fallbackConfig.app.description }
        , api :=
            { baseUrl :=
                ((p2.api.bind ApiPatch.baseUrl).or (p1.api.bind ApiPatch.baseUrl)).getD
                  fallbackConfig.api.baseUrl
            , timeoutMs :=
                ((p2.api.bind ApiPatch.timeoutMs).or (p1.api.bind ApiPatch.timeoutMs)).getD
                  fallbackConfig.api.timeoutMs
            , verifyTls :=
                ((p2.api.bind ApiPatch.verifyTls).or (p1.api.bind ApiPatch.verifyTls)).getD
                  fallbackConfig.api.verifyTls }
        , auth :=
            { username :=
                ((p2.auth.bind AuthPatch.username).or (p1.auth.bind AuthPatch.username)).getD
                  fallbackConfig.auth.username
            , password :=
                ((p2.auth.bind AuthPatch.password).or (p1.auth.bind AuthPatch.password)).getD
                  fallbackConfig.auth.password
            , token :=
                ((p2.auth.bind AuthPatch.token).or (p1.auth.bind AuthPatch.token)).getD
                  fallbackConfig.auth.token
            , totp :=
                ((p2.auth.bind AuthPatch.totp).or (p1.auth.bind AuthPatch.totp)).getD
                  fallbackConfig.auth.totp }
        , cli :=
            { defaultOutputFormat :=
                ((p2.cli.bind CliPatch.defaultOutputFormat).or
                  (p1.cli.bind CliPatch.defaultOutputFormat)).getD
                  fallbackConfig.cli.defaultOutputFormat
            , prettyPrintJson :=
                ((p2.cli.bind CliPatch.prettyPrintJson).or
                  (p1.cli.bind CliPatch.prettyPrintJson)).getD
                  fallbackConfig.cli.prettyPrintJson
            , colorizeJson :=
                ((p2.cli.bind CliPatch.colorizeJson).or
                  (p1.cli.bind CliPatch.colorizeJson)).getD
                  fallbackConfig.cli.colorizeJson } })
    ∧ (loadConfig { api := some { timeoutMs := some 12000 } }
        [("TECHNITIUMDNS_CLI_API__TIMEOUTMS", "9000")]).api.timeoutMs = 9000
    ∧ (loadConfig { api := some { timeoutMs := some 12000 } } []).api.timeoutMs = 12000
    ∧ (loadConfig {} []).api.timeoutMs = 15000 := by
  refine ⟨?_, by decide, by decide, by decide⟩
  intro p1 p2
  show mergeOverlay (mergeOverlay fallbackConfig p1) p2 = _
  simp only [mergeOverlay, mergeApp_layers, mergeApi_layers, mergeAuth_layers, mergeCli_layers]

/-- A configuration whose password contains an underscore between two
digits. -/
def c9FailingConfig : Config :=
  { fallbackConfig with auth := { fallbackConfig.auth with password := "a1_2b" } }

set_option maxRecDepth 8000 in
/-- C9: the digit-grouping removal is applied to the whole serialized
document, so while the embedded defaults round-trip (including the grouped
integer 15000, whose underscore the replace removes before writing), a
configuration whose password field contains a digit-underscore-digit
sequence is corrupted on write: the persisted value re-parses as a12b and
the serialize/reparse round trip is not the identity, contradicting the
round-trip property the claim states. -/
theorem c9_roundtrip_broken :
    roundTripConfig fallbackConfig = fallbackConfig
    ∧ charContainsSub "15_000".data (serializeConfig fallbackConfig).data = false
    ∧ charContainsSub "15000".data (serializeConfig fallbackConfig).data = true
    ∧ (roundTripConfig c9FailingConfig).auth.password = "a12b"
    ∧ roundTripConfig c9FailingConfig ≠ c9FailingConfig := by
  refine ⟨by decide, by decide, by decide, by decide, by decide⟩

/-- The user.logout endpoint as a catalog entry (its exact flags are
irrelevant to the logout wrapper, which always disables token injection). -/
def epLogout : EndpointDefinition :=
  { id := "user.logout", method := "GET", path := "/api/user/logout",
    requiresToken := some true }

/-- C10: logout with an explicit token argument leaves the session token
and its provenance untouched whatever the transport does, while logout
with no argument (resolving the session or configured token) clears the
session token to undefined once the underlying call succeeds; in both
cases the logout request itself carries the chosen token as an explicit
`token` query parameter (token injection being disabled for the call). -/
theorem c10_logout_frame :
    (∀ (st : ClientState) (init : SearchParams) (ep : EndpointDefinition)
        (outcome : TransportOutcome) (t : String),
      (logoutModel st init ep (some t) outcome).1 = st)
    ∧ (∀ (st : ClientState) (init : SearchParams) (ep : EndpointDefinition) (t : String),
      buildUrlQuery st init ep (logoutCallOptions t)
        = .ok (spSet (applyDefaultQuery init ep) "token" t)
      ∧ spLookup (spSet (applyDefaultQuery init ep) "token" t) "token" = some t)
    ∧ (∀ (st : ClientState) (init : SearchParams) (ep : EndpointDefinition)
        (outcome : TransportOutcome) (t : String) (res : ApiCallResult),
      jsOrStr st.sessionToken st.authToken = some t → t ≠ "" →
      callModel st init ep (logoutCallOptions t) outcome = .ok res →
      logoutModel st init ep none outcome
        = ({ st with sessionToken := none, tokenSource := .explicit }, .ok ())) := by
  refine ⟨?_, ?_, ?_⟩
  · intro st init ep outcome t
    by_cases ht : t = ""
    · simp [logoutModel, jsOrStr, ht]
    · cases hcall : callModel st init ep (logoutCallOptions t) outcome with
      | error e => simp [logoutModel, jsOrStr, ht, hcall]
      | ok res => simp [logoutModel, jsOrStr, ht, hcall, falsyOptStr]
  · intro st init ep t
    exact ⟨rfl, spLookup_spSet _ _ _⟩
  · intro st init ep outcome t res hres ht hcall
    simp only [logoutModel]
    rw [hres]
    simp [jsOrStr, ht, hcall, falsyOptStr]

/-- Witness for C10: with session token S and fallback F, an explicit
logout with token E leaves the state unchanged and sends token E, while a
no-argument logout against a successful transport clears the session token
(provenance becomes explicit) after sending token S. -/
theorem c10_logout_frame_witness :
    (logoutModel { sessionToken := some "S", tokenSource := .login, authToken := some "F" }
        [] epLogout (some "E") (.response okEnvelopeResponse)).1
      = { sessionToken := some "S", tokenSource := .login, authToken := some "F" }
    ∧ (buildUrlQuery { sessionToken := some "S", tokenSource := .login, authToken := some "F" }
        [] epLogout (logoutCallOptions "E") = .ok [("token", "E")]
      ∧ spLookup [("token", "E")] "token" = some "E")
    ∧ logoutModel { sessionToken := some "S", tokenSource := .login, authToken := some "F" }
        [] epLogout none (.response okEnvelopeResponse)
      = ({ sessionToken := none, tokenSource := .explicit, authToken := some "F" }, .ok ()) :=
  ⟨c10_logout_frame.1 _ [] epLogout (.response okEnvelopeResponse) "E",
   c10_logout_frame.2.1 _ [] epLogout "E",
   c10_logout_frame.2.2 _ [] epLogout (.response okEnvelopeResponse) "S"
     ⟨epLogout, .obj [("x", .num 1)], "ok",
       .obj [("status", .str "ok"), ("response", .obj [("x", .num 1)])]⟩
     rfl (by decide) rfl⟩

end Technitium
